import Mathlib

/-!
Shallow embedding of the analytics and trend-computation code of the
community-based product review system: `myproject/myproject/utils.py`,
the `Review.save` hook and `ProductAnalytics` table of
`myproject/myproject/models.py`, and the snapshot writer of
`myproject/myproject/management/commands/generate_sample_data.py`.

Python floats are modelled as rationals.  The external libraries
(TextBlob's polarity, scikit-learn's `TfidfVectorizer`) are modelled as
oracle parameters: an `Except Unit` result models the library either
returning a value (`.ok`) or raising (`.error`), which the Python code
catches with its `try/except` blocks.  Django querysets over a single
table are modelled as lists of rows; SQL `Avg` returns `none` (NULL) on
an empty selection and `Count(col)` on a non-nullable column counts the
selected rows.
-/

/-- Python's builtin `round` at integer precision: round half to even. -/
def roundHalfEven (q : ℚ) : ℤ :=
  if q - q.floor < 1/2 then q.floor
  else if 1/2 < q - q.floor then q.floor + 1
  else if q.floor % 2 = 0 then q.floor else q.floor + 1

/-- Python `round(q, 3)`: round half to even at three decimal places. -/
def round3 (q : ℚ) : ℚ := (roundHalfEven (q * 1000) : ℚ) / 1000

/-- The three sentiment labels assigned by `analyze_sentiment` in utils.py. -/
inductive SentimentLabel where
  | positive
  | negative
  | neutral
deriving DecidableEq

/-- `analyze_sentiment(text)` from utils.py.  `polarity` is the TextBlob
oracle: `.ok p` models `TextBlob(text).sentiment.polarity` evaluating to `p`,
`.error ()` models the library raising; the `except` branch returns
`(0.0, 'neutral')`.  On success the label comes from the unrounded polarity
(`> 0.1` positive, `< -0.1` negative, else neutral) and the returned score
is `round(polarity, 3)`. -/
def analyze_sentiment (polarity : String → Except Unit ℚ) (text : String) :
    ℚ × SentimentLabel :=
  match polarity text with
  | .error _ => (0, .neutral)
  | .ok p =>
    (round3 p,
      if 1/10 < p then .positive
      else if p < -(1/10) then .negative
      else .neutral)

/-- One `{'keyword': ..., 'score': ...}` entry returned by `extract_keywords`. -/
structure KeywordEntry where
  keyword : String
  score : ℚ
deriving DecidableEq

/-- Descending comparison by a key: `a` may precede `b` when
`key b ≤ key a`.  This is the order produced by Python's
`sort(key=..., reverse=True)`. -/
def keyGe {α : Type _} {β : Type _} [LinearOrder β] (key : α → β) (a b : α) : Prop :=
  key b ≤ key a

instance {α β : Type _} [LinearOrder β] (key : α → β) : IsTrans α (keyGe key) :=
  ⟨fun _ _ _ h1 h2 => le_trans h2 h1⟩

instance {α β : Type _} [LinearOrder β] (key : α → β) : IsTotal α (keyGe key) :=
  ⟨fun a b => le_total (key b) (key a)⟩

instance {α β : Type _} [LinearOrder β] (key : α → β) : DecidableRel (keyGe key) :=
  fun a b => inferInstanceAs (Decidable (key b ≤ key a))

/-- Python `text.strip()`: remove leading and trailing whitespace
characters. -/
def pyStrip (t : String) : String :=
  String.mk (((t.data.dropWhile Char.isWhitespace).reverse.dropWhile
    Char.isWhitespace).reverse)

/-- The filtering step `texts = [text for text in texts if text and
text.strip()]` of `extract_keywords`: keep the documents that are non-empty
and not all-whitespace. -/
def filtered_texts (texts : List String) : List String :=
  texts.filter (fun t => decide (t ≠ "") && decide (pyStrip t ≠ ""))

/-- `extract_keywords(texts, max_features=20)` from utils.py.  `vectorize`
is the scikit-learn oracle: given `max_features` and the filtered documents
it models `TfidfVectorizer(max_features=..., stop_words='english',
ngram_range=(1,2))` followed by `fit_transform`, `get_feature_names_out`
and the column sums, i.e. it yields the `zip(feature_names, scores)` list;
`.error ()` models the vectorizer raising, which the `except` branch turns
into `[]`.  The code returns `[]` for an empty input list, filters out
documents that are empty or all-whitespace (`text and text.strip()`),
returns `[]` if nothing is left, sorts the pairs by descending score and
rounds each score to 3 decimal places. -/
def extract_keywords (vectorize : ℕ → List String → Except Unit (List (String × ℚ)))
    (texts : List String) (max_features : ℕ := 20) : List KeywordEntry :=
  if texts = [] then []
  else if filtered_texts texts = [] then []
  else
    match vectorize max_features (filtered_texts texts) with
    | .error _ => []
    | .ok keyword_scores =>
      (List.insertionSort (keyGe (fun x : String × ℚ => x.2)) keyword_scores).map
        (fun x => ⟨x.1, round3 x.2⟩)

/-- A row of the `Review` table, with the fields the analytics code reads.
`created_date` is the calendar day (`created_at__date`) as a day number. -/
structure ReviewRow where
  created_date : ℤ
  is_approved : Bool
  rating : ℕ
  sentiment_score : Option ℚ
  sentiment_label : SentimentLabel
deriving DecidableEq

/-- A row of the `ProductAnalytics` table (models.py): the daily analytics
snapshot fields for one product and one `date` (a day number). -/
structure ProductAnalyticsRow where
  date : ℤ
  views : ℕ
  reviews_count : ℕ
  average_rating : ℚ
  average_sentiment : ℚ
  conversion_rate : ℚ
deriving DecidableEq

/-- SQL `Avg` over a selected column: NULL (`none`) when no rows are
selected, otherwise the arithmetic mean. -/
def listAvg (l : List ℚ) : Option ℚ :=
  if l = [] then none else some (l.sum / l.length)

/-- The queryset `product.reviews.filter(created_at__date__gte=start_date,
is_approved=True)` of `calculate_trend_score`, with
`start_date = end_date - timedelta(days=days)`. -/
def recent_reviews (reviews : List ReviewRow) (end_date : ℤ) (days : ℕ) :
    List ReviewRow :=
  reviews.filter (fun r => decide (end_date - days ≤ r.created_date) && r.is_approved)

/-- The queryset `ProductAnalytics.objects.filter(product=product,
date__gte=start_date)` of `calculate_trend_score`, restricted to the
product's rows. -/
def recent_analytics (analytics : List ProductAnalyticsRow) (end_date : ℤ)
    (days : ℕ) : List ProductAnalyticsRow :=
  analytics.filter (fun a => decide (end_date - days ≤ a.date))

/-- `review_count_score = min(recent_reviews.count() / 10.0, 1.0)` from
`calculate_trend_score`. -/
def review_count_score (reviews : List ReviewRow) (end_date : ℤ) (days : ℕ) : ℚ :=
  min (((recent_reviews reviews end_date days).length : ℚ) / 10) 1

/-- `rating_score = (recent_analytics['avg_rating'] or 0) / 5.0` from
`calculate_trend_score`; `Avg` yields NULL on an empty selection and the
Python `or 0` turns both NULL and `0.0` into `0`. -/
def rating_score (analytics : List ProductAnalyticsRow) (end_date : ℤ)
    (days : ℕ) : ℚ :=
  ((listAvg ((recent_analytics analytics end_date days).map
    (fun a => a.average_rating))).getD 0) / 5

/-- `sentiment_score = ((recent_analytics['avg_sentiment'] or 0) + 1) / 2`
from `calculate_trend_score`. -/
def sentiment_score (analytics : List ProductAnalyticsRow) (end_date : ℤ)
    (days : ℕ) : ℚ :=
  (((listAvg ((recent_analytics analytics end_date days).map
    (fun a => a.average_sentiment))).getD 0) + 1) / 2

/-- `view_score = min((recent_analytics['total_views'] or 0) / 100.0, 1.0)`
from `calculate_trend_score`.  The aggregate is `total_views=Count('views')`:
`views` is a non-nullable column, so this counts the selected
`ProductAnalytics` rows — it does not sum the `views` column. -/
def view_score (analytics : List ProductAnalyticsRow) (end_date : ℤ)
    (days : ℕ) : ℚ :=
  min (((recent_analytics analytics end_date days).length : ℚ) / 100) 1

/-- `calculate_trend_score(product, days=7)` from utils.py: the weighted
combination `0.3/0.25/0.25/0.2` of the four sub-scores, rounded to three
decimal places.  `end_date` is `timezone.now().date()` as a day number. -/
def calculate_trend_score (reviews : List ReviewRow)
    (analytics : List ProductAnalyticsRow) (end_date : ℤ) (days : ℕ := 7) : ℚ :=
  round3 (review_count_score reviews end_date days * 0.3 +
    rating_score analytics end_date days * 0.25 +
    sentiment_score analytics end_date days * 0.25 +
    view_score analytics end_date days * 0.2)

/-- The view sub-score as the specification words it:
`view_score = min(recent_total_views / 100, 1)` with `recent_total_views`
the total view volume — the sum of the `views` column — over the window.
Spec-side definition, for comparison with `view_score` above. -/
def view_score_spec (analytics : List ProductAnalyticsRow) (end_date : ℤ)
    (days : ℕ) : ℚ :=
  min (((((recent_analytics analytics end_date days).map
    (fun a => a.views)).sum : ℚ)) / 100) 1

/-- The trend-score formula as the specification words it: identical to
`calculate_trend_score` except that the view sub-score saturates on the
summed view volume (`view_score_spec`) instead of the row count.
Spec-side definition, for comparison with `calculate_trend_score`. -/
def trend_score_spec (reviews : List ReviewRow)
    (analytics : List ProductAnalyticsRow) (end_date : ℤ) (days : ℕ := 7) : ℚ :=
  round3 (review_count_score reviews end_date days * 0.3 +
    rating_score analytics end_date days * 0.25 +
    sentiment_score analytics end_date days * 0.25 +
    view_score_spec analytics end_date days * 0.2)

/-- The natural key of a `ProductAnalytics` row:
`unique_together = ['product', 'date']` (models.py). -/
structure SnapshotKey where
  product : ℕ
  date : ℤ
deriving DecidableEq

/-- The non-key field values of a `ProductAnalytics` row. -/
structure SnapshotValues where
  views : ℕ
  reviews_count : ℕ
  average_rating : ℚ
  average_sentiment : ℚ
  conversion_rate : ℚ
deriving DecidableEq

/-- A stored `ProductAnalytics` row: natural key plus field values. -/
structure SnapshotRow where
  key : SnapshotKey
  vals : SnapshotValues
deriving DecidableEq

/-- `ProductAnalytics.objects.get_or_create(product=..., date=...,
defaults={...})` as invoked by `create_analytics_data` in
generate_sample_data.py: when a row with the key already exists the table
is returned unchanged (the defaults are not written), otherwise a single
new row holding the defaults is appended. -/
def get_or_create (table : List SnapshotRow) (k : SnapshotKey)
    (defaults : SnapshotValues) : List SnapshotRow :=
  if table.any (fun row => decide (row.key = k)) then table
  else table ++ [⟨k, defaults⟩]

/-- The number of stored rows carrying the natural key `k`. -/
def countKey (table : List SnapshotRow) (k : SnapshotKey) : ℕ :=
  (table.filter (fun row => decide (row.key = k))).length

/-- The field values of the first stored row carrying the natural key `k`. -/
def lookupKey (table : List SnapshotRow) (k : SnapshotKey) :
    Option SnapshotValues :=
  (table.find? (fun row => decide (row.key = k))).map (fun row => row.vals)

/-- The fields of a `Review` record that its `save` hook reads and writes. -/
structure ReviewRecord where
  content : String
  sentiment_score : Option ℚ
  sentiment_label : SentimentLabel
deriving DecidableEq

/-- `Review.save` from models.py:
`if self.content and not self.sentiment_score:` recomputes the sentiment
fields from the current content via `analyze_sentiment`.  By Python
truthiness `not self.sentiment_score` holds when the stored score is
`None` and also when it is `0.0`. -/
def ReviewRecord.save (polarity : String → Except Unit ℚ) (r : ReviewRecord) :
    ReviewRecord :=
  if r.content ≠ "" ∧ (r.sentiment_score = none ∨ r.sentiment_score = some 0) then
    { r with
      sentiment_score := some (analyze_sentiment polarity r.content).1,
      sentiment_label := (analyze_sentiment polarity r.content).2 }
  else r

/-- A row of the `Product` table with its related reviews, as read by the
`top_products` block of `generate_dashboard_data`. -/
structure DashboardProduct where
  id : ℕ
  reviews : List ReviewRow

/-- One annotated `top_products` entry: `avg_rating = Avg('reviews__rating')`
(NULL, i.e. `⊥`, when the product has no reviews at all) and
`review_count = Count('reviews', filter=Q(reviews__is_approved=True))`. -/
structure TopProductEntry where
  id : ℕ
  avg_rating : WithBot ℚ
  review_count : ℕ

/-- SQL `Avg` as a `WithBot ℚ`, NULL being `⊥` (NULLs sort last under the
descending `order_by`). -/
def avgWithBot (l : List ℚ) : WithBot ℚ :=
  match listAvg l with
  | none => (⊥ : WithBot ℚ)
  | some x => (x : WithBot ℚ)

/-- The `annotate` step of the `top_products` block of
`generate_dashboard_data` in utils.py, for one product: the average rating
over all its reviews and the count of its approved reviews. -/
def annotate_product (p : DashboardProduct) : TopProductEntry :=
  ⟨p.id, avgWithBot (p.reviews.map (fun r => (r.rating : ℚ))),
    (p.reviews.filter (fun r => r.is_approved)).length⟩

/-- The `top_products` value built by `generate_dashboard_data` in utils.py:
annotate every product, keep those with `review_count >= 3`, order by
descending `avg_rating`, and take the first 10. -/
def generate_dashboard_data_top_products (products : List DashboardProduct) :
    List TopProductEntry :=
  (List.insertionSort (keyGe (fun e : TopProductEntry => e.avg_rating))
    ((products.map annotate_product).filter
      (fun e => decide (3 ≤ e.review_count)))).take 10

theorem ratFloor_eq (q : ℚ) : q.floor = ⌊q⌋ := by
  rw [Rat.floor_def' q, Rat.floor_def]

theorem roundHalfEven_eq_floor_or (q : ℚ) :
    roundHalfEven q = ⌊q⌋ ∨ roundHalfEven q = ⌊q⌋ + 1 := by
  unfold roundHalfEven
  rw [ratFloor_eq]
  split_ifs <;> simp

theorem floor_le_roundHalfEven (q : ℚ) : ⌊q⌋ ≤ roundHalfEven q := by
  rcases roundHalfEven_eq_floor_or q with h | h <;> omega

theorem le_roundHalfEven (q : ℚ) (n : ℤ) (h : (n : ℚ) ≤ q) :
    n ≤ roundHalfEven q :=
  le_trans (Int.le_floor.mpr h) (floor_le_roundHalfEven q)

theorem roundHalfEven_le (q : ℚ) (n : ℤ) (h : q ≤ (n : ℚ)) :
    roundHalfEven q ≤ n := by
  have hfq : (⌊q⌋ : ℚ) ≤ q := Int.floor_le q
  have hfn : ⌊q⌋ ≤ n := by
    have := Int.floor_le_floor h
    rwa [Int.floor_intCast] at this
  unfold roundHalfEven
  rw [ratFloor_eq]
  split_ifs with h1 h2 h3
  · exact hfn
  · have hlt : (⌊q⌋ : ℚ) < n := by linarith
    have : ⌊q⌋ < n := by exact_mod_cast hlt
    omega
  · exact hfn
  · have hlt : (⌊q⌋ : ℚ) < n := by linarith
    have : ⌊q⌋ < n := by exact_mod_cast hlt
    omega

theorem roundHalfEven_mono {q q' : ℚ} (h : q ≤ q') :
    roundHalfEven q ≤ roundHalfEven q' := by
  rcases lt_or_le ⌊q⌋ ⌊q'⌋ with hf | hf
  · have h1 : roundHalfEven q ≤ ⌊q⌋ + 1 := by
      rcases roundHalfEven_eq_floor_or q with h2 | h2 <;> omega
    have h2 := floor_le_roundHalfEven q'
    omega
  · have hf2 : ⌊q⌋ ≤ ⌊q'⌋ := Int.floor_le_floor h
    have hff : ⌊q'⌋ = ⌊q⌋ := le_antisymm hf hf2
    have hr : q - (⌊q⌋ : ℚ) ≤ q' - (⌊q'⌋ : ℚ) := by
      rw [hff]
      linarith
    unfold roundHalfEven
    rw [ratFloor_eq q, ratFloor_eq q', hff]
    split_ifs <;> first | omega | (exfalso; rw [hff] at hr; linarith)

theorem roundHalfEven_intCast (n : ℤ) : roundHalfEven ((n : ℚ)) = n := by
  unfold roundHalfEven
  rw [ratFloor_eq, Int.floor_intCast, sub_self]
  norm_num

theorem round3_eq_of_mul_eq {q : ℚ} {n : ℤ} (h : q * 1000 = (n : ℚ)) :
    round3 q = (n : ℚ) / 1000 := by
  unfold round3
  rw [h, roundHalfEven_intCast]

theorem round3_mono {q q' : ℚ} (h : q ≤ q') : round3 q ≤ round3 q' := by
  unfold round3
  have h1 : roundHalfEven (q * 1000) ≤ roundHalfEven (q' * 1000) :=
    roundHalfEven_mono (by linarith)
  have h2 : ((roundHalfEven (q * 1000) : ℤ) : ℚ) ≤
      ((roundHalfEven (q' * 1000) : ℤ) : ℚ) := by exact_mod_cast h1
  linarith

theorem round3_bound {q : ℚ} (a b : ℤ) (ha : (a : ℚ) ≤ q) (hb : q ≤ (b : ℚ)) :
    (a : ℚ) ≤ round3 q ∧ round3 q ≤ (b : ℚ) := by
  have h1 : (1000 * a : ℤ) ≤ roundHalfEven (q * 1000) := by
    apply le_roundHalfEven
    push_cast
    linarith
  have h2 : roundHalfEven (q * 1000) ≤ (1000 * b : ℤ) := by
    apply roundHalfEven_le
    push_cast
    linarith
  have h1q : ((1000 * a : ℤ) : ℚ) ≤ (roundHalfEven (q * 1000) : ℚ) := by
    exact_mod_cast h1
  have h2q : (roundHalfEven (q * 1000) : ℚ) ≤ ((1000 * b : ℤ) : ℚ) := by
    exact_mod_cast h2
  unfold round3
  push_cast at h1q h2q
  constructor <;> linarith

theorem listAvg_bounds {l : List ℚ} {a b x : ℚ}
    (h : ∀ y ∈ l, a ≤ y ∧ y ≤ b) (hx : listAvg l = some x) :
    a ≤ x ∧ x ≤ b := by
  by_cases hl : l = []
  · subst hl
    simp [listAvg] at hx
  · unfold listAvg at hx
    rw [if_neg hl] at hx
    have hx2 : l.sum / (l.length : ℚ) = x := Option.some.inj hx
    have hlen : 0 < (l.length : ℚ) := by
      have := List.length_pos.mpr hl
      exact_mod_cast this
    subst hx2
    constructor
    · rw [le_div_iff₀ hlen, mul_comm]
      have := List.card_nsmul_le_sum l a (fun y hy => (h y hy).1)
      rwa [nsmul_eq_mul] at this
    · rw [div_le_iff₀ hlen, mul_comm]
      have := List.sum_le_card_nsmul l b (fun y hy => (h y hy).2)
      rwa [nsmul_eq_mul] at this

theorem round3_zero : round3 0 = 0 := by
  have h := round3_eq_of_mul_eq (q := 0) (n := 0) (by norm_num)
  simpa using h

/-- A concrete TextBlob oracle used as a witness input: polarity 1 for the
text `"great"`, polarity 0 for every other text. -/
def polarityExample : String → Except Unit ℚ :=
  fun t => if t = "great" then .ok 1 else .ok 0

/-- Claim C5: whenever the polarity library evaluates `text` to `p`, the
sentiment scorer labels the text positive iff `p > 0.1`, negative iff
`p < -0.1`, and neutral otherwise — so `p = 0.1` and `p = -0.1` are
labelled neutral — and the score it returns is `p` rounded to 3 decimal
places. -/
theorem analyze_sentiment_thresholds (polarity : String → Except Unit ℚ)
    (text : String) (p : ℚ) (h : polarity text = .ok p) :
    ((analyze_sentiment polarity text).2 = .positive ↔ 1/10 < p) ∧
    ((analyze_sentiment polarity text).2 = .negative ↔ p < -(1/10)) ∧
    ((analyze_sentiment polarity text).2 = .neutral ↔ -(1/10) ≤ p ∧ p ≤ 1/10) ∧
    (analyze_sentiment polarity text).1 = round3 p := by
  have he : analyze_sentiment polarity text =
      (round3 p,
        if 1/10 < p then .positive
        else if p < -(1/10) then .negative
        else .neutral) := by
    unfold analyze_sentiment
    rw [h]
  rw [he]
  by_cases h1 : 1/10 < p
  · rw [if_pos h1]
    refine ⟨iff_of_true rfl h1, iff_of_false (by simp) (fun hc => by linarith),
      iff_of_false (by simp) (fun hc => absurd h1 (not_lt.mpr hc.2)), rfl⟩
  · rw [if_neg h1]
    by_cases h2 : p < -(1/10)
    · rw [if_pos h2]
      refine ⟨iff_of_false (by simp) h1, iff_of_true rfl h2,
        iff_of_false (by simp) (fun hc => absurd h2 (not_lt.mpr hc.1)), rfl⟩
    · rw [if_neg h2]
      refine ⟨iff_of_false (by simp) h1, iff_of_false (by simp) h2,
        iff_of_true rfl ⟨not_lt.mp h2, not_lt.mp h1⟩, rfl⟩

/-- Witness for C5 at a concrete input: the oracle returns polarity 1 for
`"great"`, which is labelled positive and returned rounded. -/
theorem analyze_sentiment_thresholds_witness :
    ((analyze_sentiment polarityExample "great").2 = .positive ↔ 1/10 < (1 : ℚ)) ∧
    ((analyze_sentiment polarityExample "great").2 = .negative ↔ (1 : ℚ) < -(1/10)) ∧
    ((analyze_sentiment polarityExample "great").2 = .neutral ↔
      -(1/10) ≤ (1 : ℚ) ∧ (1 : ℚ) ≤ 1/10) ∧
    (analyze_sentiment polarityExample "great").1 = round3 1 :=
  analyze_sentiment_thresholds polarityExample "great" 1 rfl

/-- Claim C6: the sentiment scorer is total and fail-soft: given the
library's contract that a returned polarity lies in `[-1, 1]` and that it
evaluates whitespace-only text to polarity 0 (or raises), the returned
score always lies in `[-1, 1]`, and both whitespace-only text and a raised
library exception produce exactly `(0.0, neutral)`. -/
theorem analyze_sentiment_safe (polarity : String → Except Unit ℚ)
    (text : String)
    (hb : ∀ t q, polarity t = .ok q → -1 ≤ q ∧ q ≤ 1)
    (hws : ∀ t, pyStrip t = "" → polarity t = .ok 0 ∨ polarity t = .error ()) :
    (-1 ≤ (analyze_sentiment polarity text).1 ∧
      (analyze_sentiment polarity text).1 ≤ 1) ∧
    (pyStrip text = "" → analyze_sentiment polarity text = (0, .neutral)) ∧
    (polarity text = .error () → analyze_sentiment polarity text = (0, .neutral)) := by
  cases hp : polarity text with
  | error e =>
    have he : analyze_sentiment polarity text = (0, .neutral) := by
      unfold analyze_sentiment
      rw [hp]
    rw [he]
    exact ⟨⟨by norm_num, by norm_num⟩, fun _ => rfl, fun _ => rfl⟩
  | ok p =>
    have he : analyze_sentiment polarity text =
        (round3 p,
          if 1/10 < p then .positive
          else if p < -(1/10) then .negative
          else .neutral) := by
      unfold analyze_sentiment
      rw [hp]
    have hpb := hb text p hp
    have hrb := round3_bound (q := p) (-1) 1 (by exact_mod_cast hpb.1)
      (by exact_mod_cast hpb.2)
    refine ⟨?_, ?_, ?_⟩
    · rw [he]
      exact ⟨by exact_mod_cast hrb.1, by exact_mod_cast hrb.2⟩
    · intro ht
      rcases hws text ht with h0 | h0
      · rw [hp] at h0
        have hp0 : p = 0 := by
          cases h0
          rfl
        rw [he, hp0, round3_zero]
        norm_num
      · rw [hp] at h0
        cases h0
    · intro h0
      cases h0

/-- Witness for C6 at a concrete input: the constant oracle returning
polarity 0 satisfies both library-contract hypotheses. -/
theorem analyze_sentiment_safe_witness :
    (-1 ≤ (analyze_sentiment (fun _ => .ok 0) "").1 ∧
      (analyze_sentiment (fun _ => .ok 0) "").1 ≤ 1) ∧
    (pyStrip "" = "" → analyze_sentiment (fun _ => .ok 0) "" = (0, .neutral)) ∧
    ((fun _ : String => (.ok 0 : Except Unit ℚ)) "" = .error () →
      analyze_sentiment (fun _ => .ok 0) "" = (0, .neutral)) :=
  analyze_sentiment_safe (fun _ => .ok 0) ""
    (fun _ q hq => by
      cases hq
      decide)
    (fun _ _ => Or.inl rfl)

/-- Claim C7: the keyword extractor is fail-soft: an empty document list
yields `[]`, a list whose documents are all empty or all-whitespace yields
`[]`, and a vectorizer failure on the filtered documents also yields `[]` —
never an exception. -/
theorem extract_keywords_safe
    (vectorize : ℕ → List String → Except Unit (List (String × ℚ)))
    (max_features : ℕ) :
    extract_keywords vectorize [] max_features = [] ∧
    (∀ texts : List String, (∀ t ∈ texts, pyStrip t = "") →
      extract_keywords vectorize texts max_features = []) ∧
    (∀ texts : List String,
      vectorize max_features (filtered_texts texts) = .error () →
      extract_keywords vectorize texts max_features = []) := by
  refine ⟨rfl, ?_, ?_⟩
  · intro texts ht
    unfold extract_keywords
    by_cases h0 : texts = []
    · rw [if_pos h0]
    · rw [if_neg h0]
      have hfo : filtered_texts texts = [] := by
        apply List.filter_eq_nil_iff.mpr
        intro t hmem
        simp [ht t hmem]
      rw [if_pos hfo]
  · intro texts hv
    unfold extract_keywords
    by_cases h0 : texts = []
    · rw [if_pos h0]
    · rw [if_neg h0]
      by_cases hf : filtered_texts texts = []
      · rw [if_pos hf]
      · rw [if_neg hf, hv]

/-- Witness for C7 at concrete inputs: the always-raising vectorizer, the
empty list, an all-whitespace list and an ordinary list. -/
theorem extract_keywords_safe_witness :
    extract_keywords (fun _ _ => .error ()) [] 20 = [] ∧
    extract_keywords (fun _ _ => .error ()) ["", " "] 20 = [] ∧
    extract_keywords (fun _ _ => .error ()) ["nice"] 20 = [] :=
  ⟨(extract_keywords_safe (fun _ _ => .error ()) 20).1,
    (extract_keywords_safe (fun _ _ => .error ()) 20).2.1 ["", " "] (by decide),
    (extract_keywords_safe (fun _ _ => .error ()) 20).2.2 ["nice"] rfl⟩

/-- Claim C8: the keyword extractor returns at most `max_features` entries —
given scikit-learn's contract that the vectorizer vocabulary is capped at
`max_features` — and the scores across the returned sequence are
non-increasing. -/
theorem extract_keywords_sorted_and_bounded
    (vectorize : ℕ → List String → Except Unit (List (String × ℚ)))
    (texts : List String) (max_features : ℕ)
    (hcap : ∀ ts ps, vectorize max_features ts = .ok ps →
      ps.length ≤ max_features) :
    (extract_keywords vectorize texts max_features).length ≤ max_features ∧
    List.Sorted (fun a b : KeywordEntry => b.score ≤ a.score)
      (extract_keywords vectorize texts max_features) := by
  unfold extract_keywords
  split_ifs with h0 hf
  · simp
  · simp
  · cases hv : vectorize max_features (filtered_texts texts) with
    | error e => simp
    | ok keyword_scores =>
      constructor
      · rw [List.length_map,
          (List.perm_insertionSort (keyGe (fun x : String × ℚ => x.2))
            keyword_scores).length_eq]
        exact hcap _ keyword_scores hv
      · have hs := List.sorted_insertionSort
          (keyGe (fun x : String × ℚ => x.2)) keyword_scores
        exact hs.map _ (fun a b hab => round3_mono hab)

/-- A concrete vectorizer oracle used as a witness input: a fixed two-term
vocabulary. -/
def vectorizeExample : ℕ → List String → Except Unit (List (String × ℚ)) :=
  fun _ _ => .ok [("quality", 2), ("price", 1)]

/-- Witness for C8 at a concrete input: the two-term vectorizer respects
the vocabulary cap 20. -/
theorem extract_keywords_sorted_and_bounded_witness :
    (extract_keywords vectorizeExample ["fine"] 20).length ≤ 20 ∧
    List.Sorted (fun a b : KeywordEntry => b.score ≤ a.score)
      (extract_keywords vectorizeExample ["fine"] 20) :=
  extract_keywords_sorted_and_bounded vectorizeExample ["fine"] 20
    (fun ts ps h => by
      cases h
      decide)

theorem round3_one : round3 1 = 1 := by
  have h := round3_eq_of_mul_eq (q := 1) (n := 1000) (by norm_num)
  rw [h]
  norm_num

theorem analyze_sentiment_ok (polarity : String → Except Unit ℚ)
    (text : String) (p : ℚ) (h : polarity text = .ok p) :
    analyze_sentiment polarity text =
      (round3 p,
        if 1/10 < p then .positive
        else if p < -(1/10) then .negative
        else .neutral) := by
  unfold analyze_sentiment
  rw [h]

theorem mem_of_mem_recent_analytics {analytics : List ProductAnalyticsRow}
    {end_date : ℤ} {days : ℕ} {a : ProductAnalyticsRow}
    (h : a ∈ recent_analytics analytics end_date days) : a ∈ analytics := by
  unfold recent_analytics at h
  exact List.mem_of_mem_filter h

/-- Claim C3: for valid inputs — every analytics row carrying an average
rating in `[0, 5]` and an average sentiment in `[-1, 1]` — each of the four
normalized sub-scores lies in `[0, 1]`, and the trend score returned by the
trend scorer lies in `[0, 1]`. -/
theorem calculate_trend_score_bounded (reviews : List ReviewRow)
    (analytics : List ProductAnalyticsRow) (end_date : ℤ) (days : ℕ)
    (hvalid : ∀ a ∈ analytics,
      (0 ≤ a.average_rating ∧ a.average_rating ≤ 5) ∧
      (-1 ≤ a.average_sentiment ∧ a.average_sentiment ≤ 1)) :
    (0 ≤ review_count_score reviews end_date days ∧
      review_count_score reviews end_date days ≤ 1) ∧
    (0 ≤ rating_score analytics end_date days ∧
      rating_score analytics end_date days ≤ 1) ∧
    (0 ≤ sentiment_score analytics end_date days ∧
      sentiment_score analytics end_date days ≤ 1) ∧
    (0 ≤ view_score analytics end_date days ∧
      view_score analytics end_date days ≤ 1) ∧
    (0 ≤ calculate_trend_score reviews analytics end_date days ∧
      calculate_trend_score reviews analytics end_date days ≤ 1) := by
  have hrc : 0 ≤ review_count_score reviews end_date days ∧
      review_count_score reviews end_date days ≤ 1 := by
    unfold review_count_score
    refine ⟨le_min (by positivity) (by norm_num), min_le_right _ _⟩
  have hra : 0 ≤ rating_score analytics end_date days ∧
      rating_score analytics end_date days ≤ 1 := by
    unfold rating_score
    cases hav : listAvg ((recent_analytics analytics end_date days).map
        (fun a => a.average_rating)) with
    | none => norm_num
    | some x =>
      have hbx : 0 ≤ x ∧ x ≤ 5 := by
        refine listAvg_bounds ?_ hav
        intro y hy
        rcases List.mem_map.mp hy with ⟨a, ha, rfl⟩
        exact (hvalid a (mem_of_mem_recent_analytics ha)).1
      simp only [Option.getD_some]
      constructor <;> linarith [hbx.1, hbx.2]
  have hse : 0 ≤ sentiment_score analytics end_date days ∧
      sentiment_score analytics end_date days ≤ 1 := by
    unfold sentiment_score
    cases hav : listAvg ((recent_analytics analytics end_date days).map
        (fun a => a.average_sentiment)) with
    | none => norm_num
    | some x =>
      have hbx : -1 ≤ x ∧ x ≤ 1 := by
        refine listAvg_bounds ?_ hav
        intro y hy
        rcases List.mem_map.mp hy with ⟨a, ha, rfl⟩
        exact (hvalid a (mem_of_mem_recent_analytics ha)).2
      simp only [Option.getD_some]
      constructor <;> linarith [hbx.1, hbx.2]
  have hvi : 0 ≤ view_score analytics end_date days ∧
      view_score analytics end_date days ≤ 1 := by
    unfold view_score
    refine ⟨le_min (by positivity) (by norm_num), min_le_right _ _⟩
  refine ⟨hrc, hra, hse, hvi, ?_⟩
  unfold calculate_trend_score
  have hb := round3_bound (q := review_count_score reviews end_date days * 0.3 +
      rating_score analytics end_date days * 0.25 +
      sentiment_score analytics end_date days * 0.25 +
      view_score analytics end_date days * 0.2) 0 1
    (by push_cast; nlinarith [hrc.1, hra.1, hse.1, hvi.1])
    (by push_cast; nlinarith [hrc.2, hra.2, hse.2, hvi.2])
  constructor
  · exact_mod_cast hb.1
  · exact_mod_cast hb.2

/-- Witness for C3 at a concrete input: one analytics row with rating 4
and sentiment 0 satisfies the validity hypothesis. -/
theorem calculate_trend_score_bounded_witness :
    (0 ≤ review_count_score [] 0 7 ∧ review_count_score [] 0 7 ≤ 1) ∧
    (0 ≤ rating_score [⟨0, 10, 0, 4, 0, 0⟩] 0 7 ∧
      rating_score [⟨0, 10, 0, 4, 0, 0⟩] 0 7 ≤ 1) ∧
    (0 ≤ sentiment_score [⟨0, 10, 0, 4, 0, 0⟩] 0 7 ∧
      sentiment_score [⟨0, 10, 0, 4, 0, 0⟩] 0 7 ≤ 1) ∧
    (0 ≤ view_score [⟨0, 10, 0, 4, 0, 0⟩] 0 7 ∧
      view_score [⟨0, 10, 0, 4, 0, 0⟩] 0 7 ≤ 1) ∧
    (0 ≤ calculate_trend_score [] [⟨0, 10, 0, 4, 0, 0⟩] 0 7 ∧
      calculate_trend_score [] [⟨0, 10, 0, 4, 0, 0⟩] 0 7 ≤ 1) :=
  calculate_trend_score_bounded [] [⟨0, 10, 0, 4, 0, 0⟩] 0 7 (by decide)

/-- Claim C10: for a product with no approved reviews and no analytics rows
in the window, the trend score is 0.125 — not 0 — because the missing
sentiment data contributes the neutral sub-score 0.5 with weight 0.25 while
every other sub-score is 0. -/
theorem calculate_trend_score_no_data (reviews : List ReviewRow)
    (analytics : List ProductAnalyticsRow) (end_date : ℤ) (days : ℕ)
    (hrev : recent_reviews reviews end_date days = [])
    (hana : recent_analytics analytics end_date days = []) :
    calculate_trend_score reviews analytics end_date days = 0.125 ∧
    (0.125 : ℚ) ≠ 0 := by
  refine ⟨?_, by norm_num⟩
  unfold calculate_trend_score review_count_score rating_score
    sentiment_score view_score
  rw [hrev, hana]
  norm_num [listAvg]
  rw [round3_eq_of_mul_eq (n := 125) (by norm_num)]
  norm_num

/-- Witness for C10 at a concrete input: empty review and analytics
tables. -/
theorem calculate_trend_score_no_data_witness :
    calculate_trend_score [] [] 0 7 = 0.125 ∧ (0.125 : ℚ) ≠ 0 :=
  calculate_trend_score_no_data [] [] 0 7 rfl rfl

/-- Claim C1 (code bug): on a window holding a single analytics row with
500 views, zero averages, and no approved reviews, the code's
`total_views=Count('views')` counts one row, so its view sub-score is 0.01
and the trend score 0.127, while the specified formula — in which
`recent_total_views` is the total view volume of the window — saturates the
view sub-score at 1 and yields 0.325. -/
theorem calculate_trend_score_count_views_bug :
    calculate_trend_score [] [⟨0, 500, 0, 0, 0, 0⟩] 0 7 = 0.127 ∧
    trend_score_spec [] [⟨0, 500, 0, 0, 0, 0⟩] 0 7 = 0.325 ∧
    (0.127 : ℚ) ≠ 0.325 := by
  have hra : recent_analytics [⟨0, 500, 0, 0, 0, 0⟩] 0 7
      = [⟨0, 500, 0, 0, 0, 0⟩] := rfl
  have hrr : recent_reviews [] 0 7 = [] := rfl
  refine ⟨?_, ?_, by norm_num⟩
  · unfold calculate_trend_score review_count_score rating_score
      sentiment_score view_score
    rw [hra, hrr]
    norm_num [listAvg]
    rw [round3_eq_of_mul_eq (n := 127) (by norm_num)]
    norm_num
  · unfold trend_score_spec review_count_score rating_score
      sentiment_score view_score_spec
    rw [hra, hrr]
    norm_num [listAvg]
    rw [round3_eq_of_mul_eq (n := 325) (by norm_num)]
    norm_num

/-- Claim C2 counterexample: re-running the snapshot writer for an already
stored (product, date) key with freshly computed values does not overwrite
the stored row — `get_or_create` keeps the first-written values. -/
theorem snapshot_rerun_does_not_overwrite :
    lookupKey (get_or_create [⟨⟨1, 0⟩, ⟨7, 1, 4, 0, 0⟩⟩] ⟨1, 0⟩ ⟨9, 2, 5, 0, 0⟩)
      ⟨1, 0⟩ = some ⟨7, 1, 4, 0, 0⟩ ∧
    (⟨7, 1, 4, 0, 0⟩ : SnapshotValues) ≠ ⟨9, 2, 5, 0, 0⟩ :=
  ⟨rfl, by decide⟩

/-- Claim C2 amended: the snapshot writer is get-or-create, not an
overwriting upsert.  Running it a second time for the same (product, date)
key is a no-op on the table — so two runs in a row yield identical stored
field values, nothing accumulates, and the key ends up with exactly one
row — but when a row already exists it keeps its previously stored values
rather than being overwritten with the new ones. -/
theorem snapshot_rerun_idempotent_no_duplicate (table : List SnapshotRow)
    (k : SnapshotKey) (d1 d2 : SnapshotValues) :
    get_or_create (get_or_create table k d1) k d2 = get_or_create table k d1 ∧
    countKey (get_or_create table k d1) k = max 1 (countKey table k) := by
  by_cases h : table.any (fun row => decide (row.key = k)) = true
  · have hcc : ∀ d : SnapshotValues, get_or_create table k d = table := by
      intro d
      unfold get_or_create
      rw [if_pos h]
    have h1 : 0 < countKey table k := by
      unfold countKey
      rcases List.any_eq_true.mp h with ⟨row, hmem, hrow⟩
      exact List.length_pos.mpr
        (List.ne_nil_of_mem (List.mem_filter.mpr ⟨hmem, hrow⟩))
    refine ⟨?_, ?_⟩
    · rw [hcc d1, hcc d2]
    · rw [hcc d1]
      omega
  · have hg1 : get_or_create table k d1 = table ++ [⟨k, d1⟩] := by
      unfold get_or_create
      rw [if_neg h]
    have h0 : table.filter (fun row => decide (row.key = k)) = [] := by
      rw [List.filter_eq_nil_iff]
      intro a ha hcontra
      exact h (List.any_eq_true.mpr ⟨a, ha, hcontra⟩)
    have hany2 : (table ++ [(⟨k, d1⟩ : SnapshotRow)]).any
        (fun row => decide (row.key = k)) = true :=
      List.any_eq_true.mpr
        ⟨⟨k, d1⟩, List.mem_append_right _ (List.mem_singleton_self _), by simp⟩
    refine ⟨?_, ?_⟩
    · rw [hg1]
      unfold get_or_create
      rw [if_pos hany2]
    · rw [hg1]
      unfold countKey
      rw [List.filter_append, h0]
      simp

/-- Claim C4 counterexample: a review first saved with neutral content
stores sentiment score 0.0; because Python's `not self.sentiment_score` is
also true of 0.0, a later save after the content has been edited recomputes
the sentiment from the new content, changing the stored score — the claim
says it is never recomputed. -/
theorem review_save_recomputes_zero_sentiment :
    (ReviewRecord.save polarityExample ⟨"meh", none, .neutral⟩).sentiment_score
      = some 0 ∧
    (ReviewRecord.save polarityExample
      { ReviewRecord.save polarityExample ⟨"meh", none, .neutral⟩ with
        content := "great" }).sentiment_score = some 1 ∧
    some (0 : ℚ) ≠ some 1 := by
  have ha0 : analyze_sentiment polarityExample "meh" = (round3 0, .neutral) := by
    rw [analyze_sentiment_ok polarityExample "meh" 0 rfl]
    norm_num
  have ha1 : analyze_sentiment polarityExample "great"
      = (round3 1, .positive) := by
    rw [analyze_sentiment_ok polarityExample "great" 1 rfl]
    norm_num
  have hs1 : ReviewRecord.save polarityExample ⟨"meh", none, .neutral⟩ =
      ⟨"meh", some 0, .neutral⟩ := by
    unfold ReviewRecord.save
    rw [if_pos ⟨by decide, Or.inl rfl⟩, ha0, round3_zero]
  have hs2 : ReviewRecord.save polarityExample ⟨"great", some 0, .neutral⟩ =
      ⟨"great", some 1, .positive⟩ := by
    unfold ReviewRecord.save
    rw [if_pos ⟨by decide, Or.inr rfl⟩, ha1, round3_one]
  rw [hs1]
  refine ⟨rfl, ?_, by norm_num⟩
  have hcontent : ({ (⟨"meh", some 0, .neutral⟩ : ReviewRecord) with
      content := "great" } : ReviewRecord) = ⟨"great", some 0, .neutral⟩ := rfl
  rw [hcontent, hs2]

/-- Claim C4 amended: the save hook computes the sentiment fields from the
current content exactly when the content is non-empty and the stored score
is missing or — by Python falsiness — exactly 0.0.  Hence sentiment is
computed at the first save with non-empty content, and once a nonzero score
is stored no later save recomputes it; but a stored score of 0.0 is
recomputed from the (possibly edited) content on every later save. -/
theorem review_save_sentiment_policy (polarity : String → Except Unit ℚ) :
    (∀ r : ReviewRecord, r.content ≠ "" → r.sentiment_score = none →
      ReviewRecord.save polarity r =
        { r with
          sentiment_score := some (analyze_sentiment polarity r.content).1,
          sentiment_label := (analyze_sentiment polarity r.content).2 }) ∧
    (∀ (r : ReviewRecord) (s : ℚ), r.sentiment_score = some s → s ≠ 0 →
      ReviewRecord.save polarity r = r) := by
  constructor
  · intro r hc hn
    unfold ReviewRecord.save
    rw [if_pos ⟨hc, Or.inl hn⟩]
  · intro r s hs hs0
    have hnot : ¬(r.content ≠ "" ∧
        (r.sentiment_score = none ∨ r.sentiment_score = some 0)) := by
      rintro ⟨-, h | h⟩
      · rw [hs] at h
        cases h
      · rw [hs] at h
        exact hs0 (Option.some.inj h)
    unfold ReviewRecord.save
    rw [if_neg hnot]

/-- Witness for the amended C4 at concrete inputs: a first save with
non-empty content computes the sentiment fields, and a save of a record
holding the nonzero score 1 is a no-op. -/
theorem review_save_sentiment_policy_witness :
    ReviewRecord.save polarityExample ⟨"great", none, .neutral⟩ =
      { (⟨"great", none, .neutral⟩ : ReviewRecord) with
        sentiment_score :=
          some (analyze_sentiment polarityExample "great").1,
        sentiment_label := (analyze_sentiment polarityExample "great").2 } ∧
    ReviewRecord.save polarityExample ⟨"fine", some 1, .positive⟩ =
      ⟨"fine", some 1, .positive⟩ :=
  ⟨(review_save_sentiment_policy polarityExample).1
      ⟨"great", none, .neutral⟩ (by decide) rfl,
    (review_save_sentiment_policy polarityExample).2
      ⟨"fine", some 1, .positive⟩ 1 rfl (by decide)⟩

/-- Claim C9: the dashboard composer's `top_products` list has at most 10
entries, every entry has at least 3 approved reviews, and the entries are
ordered by descending average rating. -/
theorem generate_dashboard_top_products_spec (products : List DashboardProduct) :
    (generate_dashboard_data_top_products products).length ≤ 10 ∧
    (∀ e ∈ generate_dashboard_data_top_products products,
      3 ≤ e.review_count) ∧
    List.Sorted (keyGe (fun e : TopProductEntry => e.avg_rating))
      (generate_dashboard_data_top_products products) := by
  unfold generate_dashboard_data_top_products
  refine ⟨List.length_take_le _ _, ?_, ?_⟩
  · intro e he
    have he2 := List.mem_of_mem_take he
    have he3 := (List.perm_insertionSort
      (keyGe (fun e : TopProductEntry => e.avg_rating)) _).mem_iff.mp he2
    exact of_decide_eq_true (List.mem_filter.mp he3).2
  · exact (List.sorted_insertionSort _ _).sublist (List.take_sublist _ _)

/-- Witness for C9 at a concrete input: a single product with three
approved five-star reviews. -/
theorem generate_dashboard_top_products_spec_witness :
    (generate_dashboard_data_top_products
      [⟨1, [⟨0, true, 5, none, .neutral⟩, ⟨0, true, 4, none, .neutral⟩,
        ⟨0, true, 5, none, .neutral⟩]⟩]).length ≤ 10 ∧
    (∀ e ∈ generate_dashboard_data_top_products
      [⟨1, [⟨0, true, 5, none, .neutral⟩, ⟨0, true, 4, none, .neutral⟩,
        ⟨0, true, 5, none, .neutral⟩]⟩], 3 ≤ e.review_count) ∧
    List.Sorted (keyGe (fun e : TopProductEntry => e.avg_rating))
      (generate_dashboard_data_top_products
        [⟨1, [⟨0, true, 5, none, .neutral⟩, ⟨0, true, 4, none, .neutral⟩,
          ⟨0, true, 5, none, .neutral⟩]⟩]) :=
  generate_dashboard_top_products_spec
    [⟨1, [⟨0, true, 5, none, .neutral⟩, ⟨0, true, 4, none, .neutral⟩,
      ⟨0, true, 5, none, .neutral⟩]⟩]
